import Mathlib

/-!
Verification of the dimagram/creator publish/unpublish lifecycle.

This development shallowly embeds the Go functions `publishProcess`
(backend/cmd/server.go) and `unpublishProcess` (backend/cmd/unpublish.go),
together with the content-addressable upload handler of `startServer`,
and proves the specified properties about them.

State model: the two persisted JSON files `data/album.json` (the Queue) and
`data/archive.json` (the Archive), plus the remote pointer object
(`today.json` on the SFTP server) and a counter of logged CDN warnings.
External effects that can fail (SFTP upload, CDN purge, the two local file
writes) are driven by a record of outcome flags, so one run of the embedded
function corresponds to one execution of the Go code under a fixed
fault pattern.
-/

namespace Dimagram

/-- The `id` field of `AlbumItem` is `interface\x7b\x7d` in Go: persisted JSON ids
are observed both as strings and as numbers. -/
inductive Ident where
  | str (s : String)
  | num (n : Int)
deriving DecidableEq

/-- Go struct `AlbumItem` (backend/cmd/server.go lines 23-28). -/
structure AlbumItem where
  id : Ident
  url : String
  description : String
  credits : String
deriving DecidableEq

/-- What a read of one of the two persisted JSON files can observe:
the file is absent (`os.IsNotExist`), the read fails for another reason,
the content does not unmarshal, or it holds a list of items. -/
inductive FileData where
  | absent
  | unreadable
  | malformed
  | items (xs : List AlbumItem)
deriving DecidableEq

/-- The state publish/unpublish acts on: the persisted Queue
(`data/album.json`), the persisted Archive (`data/archive.json`), the
remote pointer object (content of `today.json`, `none` when never written),
and the number of CDN-purge warnings logged so far. -/
structure SysState where
  album : FileData
  archive : FileData
  pointer : Option String
  cdnWarnings : Nat
deriving DecidableEq

/-- Outcome flags for the external effects of one invocation: whether the
SFTP upload of the pointer succeeds, whether the CDN purge succeeds, and
whether each of the two `os.WriteFile` calls succeeds. -/
structure Faults where
  sftpOk : Bool
  cdnOk : Bool
  writeArchiveOk : Bool
  writeAlbumOk : Bool
deriving DecidableEq

/-- The error exits of the two processes. `emptyAlbum` / `emptyArchive`
are the spec's `ValidationError`; `parseAlbumFail` / `parseArchiveFail`
its `SerializationError`. -/
inductive OpError where
  | readAlbumFail
  | parseAlbumFail
  | emptyAlbum
  | sftpFail
  | readArchiveFail
  | parseArchiveFail
  | emptyArchive
  | writeArchiveFail
  | writeAlbumFail
deriving DecidableEq

deriving instance DecidableEq for Except

/-- Serialization of the Go `id interface\x7b\x7d` value by `json.Marshal`. -/
def serializeIdent : Ident → String
  | .str s => "\"" ++ s ++ "\""
  | .num n => toString n

/-- `json.Marshal` of an `AlbumItem`, as uploaded to `today.json` by
`uploadToSFTP` (backend/cmd/server.go lines 445-449). -/
def serializeItem (it : AlbumItem) : String :=
  "\x7b\"id\":" ++ serializeIdent it.id ++ ",\"url\":\"" ++ it.url ++
    "\",\"description\":\"" ++ it.description ++ "\",\"credits\":\"" ++
    it.credits ++ "\"\x7d"

/-- A file read followed by unmarshalling where any read failure is fatal:
the pattern used for `album.json` in `publishProcess` (lines 64-73) and for
`archive.json` in `unpublishProcess` (lines 28-39). -/
def strictLoad (rerr perr : OpError) : FileData → Except OpError (List AlbumItem)
  | .absent => .error rerr
  | .unreadable => .error rerr
  | .malformed => .error perr
  | .items xs => .ok xs

/-- A file read that treats `os.IsNotExist` as the empty list: the pattern
used for `archive.json` in `publishProcess` (lines 98-108) and for
`album.json` in `unpublishProcess` (lines 55-66). -/
def tolerantLoad (rerr perr : OpError) : FileData → Except OpError (List AlbumItem)
  | .absent => .ok []
  | .unreadable => .error rerr
  | .malformed => .error perr
  | .items xs => .ok xs

/-- `publishProcess` (backend/cmd/server.go lines 62-136): load the album,
take the first item, upload it as the pointer (`uploadToSFTP`), purge the
CDN (failure only logged), load the archive tolerating absence, write the
archive with the item appended, then write the album without its first
item. Returns the outcome and the resulting state. -/
def publishProcess (w : Faults) (s : SysState) : Except OpError Unit × SysState :=
  match strictLoad .readAlbumFail .parseAlbumFail s.album with
  | .error e => (.error e, s)
  | .ok albumItems =>
    match albumItems with
    | [] => (.error .emptyAlbum, s)
    | firstItem :: restItems =>
      if w.sftpOk = false then (.error .sftpFail, s)
      else
        let s1 : SysState := { s with pointer := some (serializeItem firstItem) }
        let s2 : SysState :=
          if w.cdnOk then s1 else { s1 with cdnWarnings := s1.cdnWarnings + 1 }
        match tolerantLoad .readArchiveFail .parseArchiveFail s2.archive with
        | .error e => (.error e, s2)
        | .ok archiveItems =>
          if w.writeArchiveOk = false then (.error .writeArchiveFail, s2)
          else
            let s3 : SysState := { s2 with archive := .items (archiveItems ++ [firstItem]) }
            if w.writeAlbumOk = false then (.error .writeAlbumFail, s3)
            else (.ok (), { s3 with album := .items restItems })

/-- The tail of `unpublishProcess` from step 6 on (lines 89-111): write the
shrunken archive, then write the album with the item prepended. -/
def unpublishCommit (w : Faults) (s : SysState) (lastItem : AlbumItem)
    (remaining albumItems : List AlbumItem) : Except OpError Unit × SysState :=
  if w.writeArchiveOk = false then (.error .writeArchiveFail, s)
  else
    let s3 : SysState := { s with archive := .items remaining }
    if w.writeAlbumOk = false then (.error .writeAlbumFail, s3)
    else (.ok (), { s3 with album := .items (lastItem :: albumItems) })

/-- `unpublishProcess` (backend/cmd/unpublish.go lines 26-114): load the
archive, take its last item, load the album tolerating absence, and if the
archive remains non-empty after removing the last item, upload the new last
item as the pointer (`uploadToSFTP`) and purge the CDN (failure only
logged); then persist both collections. When the archive becomes empty the
pointer is not touched. -/
def unpublishProcess (w : Faults) (s : SysState) : Except OpError Unit × SysState :=
  match strictLoad .readArchiveFail .parseArchiveFail s.archive with
  | .error e => (.error e, s)
  | .ok archiveItems =>
    match archiveItems.getLast? with
    | none => (.error .emptyArchive, s)
    | some lastItem =>
      match tolerantLoad .readAlbumFail .parseAlbumFail s.album with
      | .error e => (.error e, s)
      | .ok albumItems =>
        let remaining := archiveItems.dropLast
        match remaining.getLast? with
        | some newLastItem =>
          if w.sftpOk = false then (.error .sftpFail, s)
          else
            let s1 : SysState := { s with pointer := some (serializeItem newLastItem) }
            let s2 : SysState :=
              if w.cdnOk then s1 else { s1 with cdnWarnings := s1.cdnWarnings + 1 }
            unpublishCommit w s2 lastItem remaining albumItems
        | none => unpublishCommit w s lastItem remaining albumItems

/-- The items a persisted file holds (empty for anything unparseable). -/
def itemsOfFile : FileData → List AlbumItem
  | .items xs => xs
  | _ => []

/-- The ids a persisted file holds. -/
def idsOfFile (f : FileData) : List Ident :=
  (itemsOfFile f).map AlbumItem.id

/-- The spec invariant: each id occurs at most once across the persisted
Queue and Archive taken together. -/
def idUnique (s : SysState) : Prop :=
  (idsOfFile s.album ++ idsOfFile s.archive).Nodup

instance (s : SysState) : Decidable (idUnique s) := by
  unfold idUnique; infer_instance

/-- States reachable from `s` by publish and unpublish invocations whose
persistence does not fail between the Archive write and the Queue write of
a publish (any other fault pattern is allowed at every step). -/
inductive ReachableOk : SysState → SysState → Prop where
  | refl (s : SysState) : ReachableOk s s
  | pub (w : Faults) {s t : SysState}
      (hw : w.writeArchiveOk = true → w.writeAlbumOk = true)
      (h : ReachableOk s t) : ReachableOk s (publishProcess w t).2
  | unpub (w : Faults) {s t : SysState}
      (h : ReachableOk s t) : ReachableOk s (unpublishProcess w t).2

/-- Truncation to a 32-bit word, as Go uint32 arithmetic overflows. -/
def w32 (n : Nat) : Nat := n % 4294967296

/-- 32-bit rotate right. -/
def rotr32 (b x : Nat) : Nat := w32 ((x >>> b) ||| (x <<< (32 - b)))

def bigSigma0 (x : Nat) : Nat := rotr32 2 x ^^^ rotr32 13 x ^^^ rotr32 22 x

def bigSigma1 (x : Nat) : Nat := rotr32 6 x ^^^ rotr32 11 x ^^^ rotr32 25 x

def smallSigma0 (x : Nat) : Nat := rotr32 7 x ^^^ rotr32 18 x ^^^ (x >>> 3)

def smallSigma1 (x : Nat) : Nat := rotr32 17 x ^^^ rotr32 19 x ^^^ (x >>> 10)

def chFn (x y z : Nat) : Nat := (x &&& y) ^^^ ((x ^^^ 4294967295) &&& z)

def majFn (x y z : Nat) : Nat := (x &&& y) ^^^ (x &&& z) ^^^ (y &&& z)

/-- The 64 SHA-256 round constants. -/
def kWords : List Nat :=
  [1116352408, 1899447441, 3049323471, 3921009573, 961987163,
   1508970993, 2453635748, 2870763221, 3624381080, 310598401,
   607225278, 1426881987, 1925078388, 2162078206, 2614888103,
   3248222580, 3835390401, 4022224774, 264347078, 604807628,
   770255983, 1249150122, 1555081692, 1996064986, 2554220882,
   2821834349, 2952996808, 3210313671, 3336571891, 3584528711,
   113926993, 338241895, 666307205, 773529912, 1294757372,
   1396182291, 1695183700, 1986661051, 2177026350, 2456956037,
   2730485921, 2820302411, 3259730800, 3345764771, 3516065817,
   3600352804, 4094571909, 275423344, 430227734, 506948616,
   659060556, 883997877, 958139571, 1322822218, 1537002063,
   1747873779, 1955562222, 2024104815, 2227730452, 2361852424,
   2428436474, 2756734187, 3204031479, 3329325298]

/-- The SHA-256 initial hash value. -/
def initH : List Nat :=
  [1779033703, 3144134277, 1013904242, 2773480762,
   1359893119, 2600822924, 528734635, 1541459225]

/-- Big-endian byte decomposition of a number into a fixed count of bytes. -/
def beBytes (count n : Nat) : List Nat :=
  (List.range count).map (fun i => (n >>> (8 * (count - 1 - i))) % 256)

/-- SHA-256 padding: append 0x80, zeros to 56 mod 64, then the 64-bit
big-endian bit length. -/
def padMessage (msg : List Nat) : List Nat :=
  msg ++ [128] ++ List.replicate ((119 - msg.length % 64) % 64) 0 ++
    beBytes 8 ((msg.length * 8) % 18446744073709551616)

/-- Split a byte list into 64-byte blocks; the fuel argument (instantiated
with the list length) bounds the recursion structurally. -/
def chunksOf64Aux : Nat → List Nat → List (List Nat)
  | 0, _ => []
  | _, [] => []
  | fuel + 1, l => l.take 64 :: chunksOf64Aux fuel (l.drop 64)

/-- Split a byte list into 64-byte blocks. -/
def chunksOf64 (l : List Nat) : List (List Nat) :=
  chunksOf64Aux l.length l

/-- The 16 big-endian 32-bit words of one 64-byte block. -/
def chunkWords (chunk : List Nat) : List Nat :=
  (List.range 16).map (fun i =>
    chunk.getD (4 * i) 0 * 16777216 + chunk.getD (4 * i + 1) 0 * 65536 +
      chunk.getD (4 * i + 2) 0 * 256 + chunk.getD (4 * i + 3) 0)

/-- Extend 16 message-schedule words to 64. -/
def extendWords (ws : List Nat) : List Nat :=
  (List.range 48).foldl (fun acc i =>
    acc ++ [w32 (smallSigma1 (acc.getD (i + 14) 0) + acc.getD (i + 9) 0 +
      smallSigma0 (acc.getD (i + 1) 0) + acc.getD i 0)]) ws

/-- The eight working variables of the compression loop. -/
structure Hash8 where
  a : Nat
  b : Nat
  c : Nat
  d : Nat
  e : Nat
  f : Nat
  g : Nat
  h : Nat
deriving DecidableEq

/-- One round of the SHA-256 compression function. -/
def roundStep (hv : Hash8) (kw : Nat × Nat) : Hash8 :=
  let t1 := w32 (hv.h + bigSigma1 hv.e + chFn hv.e hv.f hv.g + kw.1 + kw.2)
  let t2 := w32 (bigSigma0 hv.a + majFn hv.a hv.b hv.c)
  { a := w32 (t1 + t2), b := hv.a, c := hv.b, d := hv.c,
    e := w32 (hv.d + t1), f := hv.e, g := hv.f, h := hv.g }

/-- Process one 64-byte block, updating the eight hash words. -/
def processChunk (hs : List Nat) (chunk : List Nat) : List Nat :=
  let ws := extendWords (chunkWords chunk)
  let ini : Hash8 :=
    ⟨hs.getD 0 0, hs.getD 1 0, hs.getD 2 0, hs.getD 3 0,
     hs.getD 4 0, hs.getD 5 0, hs.getD 6 0, hs.getD 7 0⟩
  let fin := (kWords.zip ws).foldl roundStep ini
  [w32 (hs.getD 0 0 + fin.a), w32 (hs.getD 1 0 + fin.b),
   w32 (hs.getD 2 0 + fin.c), w32 (hs.getD 3 0 + fin.d),
   w32 (hs.getD 4 0 + fin.e), w32 (hs.getD 5 0 + fin.f),
   w32 (hs.getD 6 0 + fin.g), w32 (hs.getD 7 0 + fin.h)]

/-- SHA-256 of a byte sequence, as computed by Go `crypto/sha256` on the
uploaded stream: a 32-byte digest. -/
def sha256 (msg : List Nat) : List Nat :=
  ((chunksOf64 (padMessage msg)).foldl processChunk initH).map (beBytes 4) |>.flatten

/-- One lowercase hexadecimal digit, `0`-`9` then `a`-`f`. -/
def hexDigitChar (n : Nat) : Char :=
  if n < 10 then Char.ofNat (48 + n) else Char.ofNat (87 + n)

/-- The two lowercase hex digits of one byte. -/
def hexByte (b : Nat) : List Char := [hexDigitChar (b / 16 % 16), hexDigitChar (b % 16)]

/-- Lowercase hex encoding of a byte sequence: Go `fmt.Sprintf` with verb
`%x` on the `Sum` of the hasher. -/
def hexOfBytes (bs : List Nat) : String := String.mk ((bs.map hexByte).flatten)

/-- The result of the `/api/upload` handler: the hash-derived remote file
name (the content address), the CDN-qualified URL returned to the client,
and the local path the SFTP upload reads from. -/
structure UploadResult where
  filename : String
  url : String
  localPathUsed : String
deriving DecidableEq

/-- The content-addressing part of the `/api/upload` handler
(backend/cmd/server.go lines 292-365): the byte stream is written to a
temporary name derived from `time.Now().UnixNano()` (the `nonce`) while a
SHA-256 digest is computed in the same pass; the file is then renamed to
`hex(digest)+extension` (falling back to the temporary name when the rename
fails), uploaded under the hash-derived remote name, and the CDN URL for
that name is returned. -/
def uploadHandler (nonce : Nat) (renameOk : Bool) (cdnURL : String)
    (data : List Nat) (fileExt : String) : UploadResult :=
  let tempFilename := "temp-" ++ toString nonce ++ fileExt
  let filePath := "data/uploads/" ++ tempFilename
  let hashString := hexOfBytes (sha256 data)
  let filename := hashString ++ fileExt
  let finalPath := "data/uploads/" ++ filename
  let filePathAfter :=
    if finalPath ≠ filePath then (if renameOk then finalPath else filePath)
    else filePath
  { filename := filename
    url := cdnURL ++ "/content/" ++ filename
    localPathUsed := filePathAfter }

/-- The address formula as the spec states it:
`address = hex(digest)+extension`. -/
def specContentAddress (data : List Nat) (ext : String) : String :=
  hexOfBytes (sha256 data) ++ ext

/-- A sample item used by the witnesses. -/
def sampleA : AlbumItem := ⟨Ident.str "1", "a", "", ""⟩

/-- A second sample item used by the witnesses. -/
def sampleB : AlbumItem := ⟨Ident.str "2", "b", "", ""⟩

/-- All external effects succeed. -/
def faultFree : Faults := ⟨true, true, true, true⟩

/-- Only the CDN purge fails. -/
def faultCdn : Faults := ⟨true, false, true, true⟩

/-- Only the SFTP pointer upload fails. -/
def faultSftp : Faults := ⟨false, true, true, true⟩

/-- Only the final album write fails. -/
def faultAlbumWrite : Faults := ⟨true, true, true, false⟩

/-- Two queued items, empty archive. -/
def sampleState : SysState := ⟨.items [sampleA, sampleB], .items [], none, 0⟩

/-- Empty album, two archived items, a pointer already written. -/
def sampleArchState : SysState := ⟨.items [], .items [sampleA, sampleB], some "p", 0⟩

/-- An empty (but present) album file. -/
def emptyQueueState : SysState := ⟨.items [], .items [sampleA], none, 0⟩

/-- An empty (but present) archive file. -/
def emptyArchState : SysState := ⟨.items [sampleA], .items [], none, 0⟩

/-- A queued item with the archive file missing. -/
def absentArchState : SysState := ⟨.items [sampleA], .absent, none, 0⟩

/-- An archived item with the album file missing. -/
def absentAlbumState : SysState := ⟨.absent, .items [sampleB], none, 0⟩

end Dimagram

namespace Dimagram

theorem publish_ok_eq (w : Faults) (s : SysState) (x : AlbumItem)
    (rest ys : List AlbumItem)
    (halbum : s.album = .items (x :: rest))
    (harch : tolerantLoad .readArchiveFail .parseArchiveFail s.archive = .ok ys)
    (hsftp : w.sftpOk = true) (hwa : w.writeArchiveOk = true)
    (hwb : w.writeAlbumOk = true) :
    publishProcess w s = (.ok (),
      { album := .items rest, archive := .items (ys ++ [x]),
        pointer := some (serializeItem x),
        cdnWarnings := if w.cdnOk then s.cdnWarnings else s.cdnWarnings + 1 }) := by
  simp only [publishProcess, strictLoad, halbum, hsftp, hwa, hwb, harch]
  cases hc : w.cdnOk <;> simp [harch]

/-- C1: a fully successful publish removes exactly the front item from the
Queue, leaving the rest in order, appends it at the back of the Archive,
changes the two lengths by one each, and leaves the pointer equal to the
serialization of the new back of the Archive, which is the published
item. -/
theorem publish_success_moves_front (w : Faults) (s : SysState)
    (x : AlbumItem) (rest ys : List AlbumItem)
    (halbum : s.album = .items (x :: rest))
    (harch : tolerantLoad .readArchiveFail .parseArchiveFail s.archive = .ok ys)
    (hsftp : w.sftpOk = true) (hwa : w.writeArchiveOk = true)
    (hwb : w.writeAlbumOk = true) :
    (publishProcess w s).1 = .ok () ∧
    (publishProcess w s).2.album = .items rest ∧
    (publishProcess w s).2.archive = .items (ys ++ [x]) ∧
    (itemsOfFile (publishProcess w s).2.album).length + 1 = (itemsOfFile s.album).length ∧
    (itemsOfFile (publishProcess w s).2.archive).length = ys.length + 1 ∧
    (ys ++ [x]).getLast? = some x ∧
    (publishProcess w s).2.pointer = some (serializeItem x) := by
  simp only [publishProcess, strictLoad, halbum, hsftp, hwa, hwb, harch]
  cases hc : w.cdnOk <;>
    simp [itemsOfFile, halbum, harch, List.getLast?_concat]

/-- Witness for C1: publishing from a two-item queue with an empty
archive. -/
theorem publish_success_moves_front_wit :
    sampleState.album = .items (sampleA :: [sampleB]) ∧
    tolerantLoad .readArchiveFail .parseArchiveFail sampleState.archive
      = .ok [] ∧
    faultFree.sftpOk = true ∧ faultFree.writeArchiveOk = true ∧
    faultFree.writeAlbumOk = true ∧
    ((publishProcess faultFree sampleState).1 = .ok () ∧
     (publishProcess faultFree sampleState).2.album = .items [sampleB] ∧
     (publishProcess faultFree sampleState).2.archive = .items ([] ++ [sampleA]) ∧
     (itemsOfFile (publishProcess faultFree sampleState).2.album).length + 1
       = (itemsOfFile sampleState.album).length ∧
     (itemsOfFile (publishProcess faultFree sampleState).2.archive).length
       = List.length ([] : List AlbumItem) + 1 ∧
     (([] : List AlbumItem) ++ [sampleA]).getLast? = some sampleA ∧
     (publishProcess faultFree sampleState).2.pointer = some (serializeItem sampleA)) :=
  ⟨rfl, rfl, rfl, rfl, rfl,
    publish_success_moves_front faultFree sampleState sampleA [sampleB] []
      rfl rfl rfl rfl rfl⟩

/-- C2: publish on an empty Queue fails with the empty-queue validation
error and changes nothing, and unpublish on an empty Archive fails with the
empty-archive validation error and changes nothing. -/
theorem publish_unpublish_empty_validation (w w' : Faults) (s t : SysState)
    (hq : s.album = .items []) (ha : t.archive = .items []) :
    publishProcess w s = (.error .emptyAlbum, s) ∧
    unpublishProcess w' t = (.error .emptyArchive, t) := by
  constructor
  · simp [publishProcess, strictLoad, hq]
  · simp [unpublishProcess, strictLoad, ha]

/-- Witness for C2: an empty album file and an empty archive file. -/
theorem publish_unpublish_empty_validation_wit :
    emptyQueueState.album = .items [] ∧
    emptyArchState.archive = .items [] ∧
    (publishProcess faultFree emptyQueueState = (.error .emptyAlbum, emptyQueueState) ∧
     unpublishProcess faultFree emptyArchState = (.error .emptyArchive, emptyArchState)) :=
  ⟨rfl, rfl,
    publish_unpublish_empty_validation faultFree faultFree
      emptyQueueState emptyArchState rfl rfl⟩

/-- C3: the pointer upload is the synchronization gate of publish: when it
fails, publish returns the upload error and the whole state — Queue,
Archive, pointer and warnings — is exactly as before the call. -/
theorem publish_sftp_gate (w : Faults) (s : SysState) (x : AlbumItem)
    (rest : List AlbumItem)
    (halbum : s.album = .items (x :: rest)) (hsftp : w.sftpOk = false) :
    (publishProcess w s).1 = .error .sftpFail ∧ (publishProcess w s).2 = s := by
  simp [publishProcess, strictLoad, halbum, hsftp]

/-- Witness for C3: the pointer upload fails on a two-item queue. -/
theorem publish_sftp_gate_wit :
    sampleState.album = .items (sampleA :: [sampleB]) ∧
    faultSftp.sftpOk = false ∧
    ((publishProcess faultSftp sampleState).1 = .error .sftpFail ∧
     (publishProcess faultSftp sampleState).2 = sampleState) :=
  ⟨rfl, rfl, publish_sftp_gate faultSftp sampleState sampleA [sampleB] rfl rfl⟩

/-- C4: unpublish is the left-inverse of publish when no edits intervene:
a fully successful publish followed by a fully successful unpublish
restores the Queue to its pre-publish content and order (the item returns
to the front, its pre-publish position) and the Archive to its pre-publish
item sequence. -/
theorem publish_unpublish_roundtrip (w w' : Faults) (s : SysState)
    (x : AlbumItem) (rest ys : List AlbumItem)
    (halbum : s.album = .items (x :: rest))
    (harch : tolerantLoad .readArchiveFail .parseArchiveFail s.archive = .ok ys)
    (hsftp : w.sftpOk = true) (hwa : w.writeArchiveOk = true)
    (hwb : w.writeAlbumOk = true)
    (hsftp' : w'.sftpOk = true) (hwa' : w'.writeArchiveOk = true)
    (hwb' : w'.writeAlbumOk = true) :
    (publishProcess w s).1 = .ok () ∧
    (unpublishProcess w' (publishProcess w s).2).1 = .ok () ∧
    (unpublishProcess w' (publishProcess w s).2).2.album = .items (x :: rest) ∧
    (unpublishProcess w' (publishProcess w s).2).2.archive = .items ys := by
  rw [publish_ok_eq w s x rest ys halbum harch hsftp hwa hwb]
  simp only [unpublishProcess, strictLoad, tolerantLoad, List.getLast?_concat,
    List.dropLast_concat]
  cases hdl : ys.getLast? with
  | none => simp [unpublishCommit, hwa', hwb']
  | some y =>
    cases hc : w'.cdnOk <;> simp [unpublishCommit, hwa', hwb', hsftp']

/-- Witness for C4: publish then unpublish on a two-item queue. -/
theorem publish_unpublish_roundtrip_wit :
    sampleState.album = .items (sampleA :: [sampleB]) ∧
    tolerantLoad .readArchiveFail .parseArchiveFail sampleState.archive
      = .ok [] ∧
    faultFree.sftpOk = true ∧ faultFree.writeArchiveOk = true ∧
    faultFree.writeAlbumOk = true ∧
    ((publishProcess faultFree sampleState).1 = .ok () ∧
     (unpublishProcess faultFree (publishProcess faultFree sampleState).2).1 = .ok () ∧
     (unpublishProcess faultFree (publishProcess faultFree sampleState).2).2.album
       = .items (sampleA :: [sampleB]) ∧
     (unpublishProcess faultFree (publishProcess faultFree sampleState).2).2.archive
       = .items []) :=
  ⟨rfl, rfl, rfl, rfl, rfl,
    publish_unpublish_roundtrip faultFree faultFree sampleState sampleA [sampleB] []
      rfl rfl rfl rfl rfl rfl rfl rfl⟩

/-- C5: a fully successful unpublish removes the back of the Archive and
prepends that item to the Queue front; when the Archive stays non-empty the
pointer is rewritten to the serialization of the new back, and when the
Archive becomes empty the pointer is left exactly as it was. -/
theorem unpublish_success_moves_back (w : Faults) (s : SysState)
    (x : AlbumItem) (zs xs : List AlbumItem)
    (harch : s.archive = .items zs) (hlast : zs.getLast? = some x)
    (halbum : tolerantLoad .readAlbumFail .parseAlbumFail s.album = .ok xs)
    (hsftp : w.sftpOk = true) (hwa : w.writeArchiveOk = true)
    (hwb : w.writeAlbumOk = true) :
    (unpublishProcess w s).1 = .ok () ∧
    (unpublishProcess w s).2.archive = .items zs.dropLast ∧
    (unpublishProcess w s).2.album = .items (x :: xs) ∧
    (zs.dropLast = [] → (unpublishProcess w s).2.pointer = s.pointer) ∧
    (∀ y, zs.dropLast.getLast? = some y →
      (unpublishProcess w s).2.pointer = some (serializeItem y)) := by
  simp only [unpublishProcess, strictLoad, harch, hlast, halbum]
  cases hdl : zs.dropLast.getLast? with
  | none =>
    simp [unpublishCommit, hwa, hwb, hdl]
  | some y =>
    have hne : ¬ zs.dropLast = [] := by
      intro h; rw [h] at hdl; simp at hdl
    cases hc : w.cdnOk <;>
      simp [unpublishCommit, hwa, hwb, hsftp, hdl, hne]

/-- Witness for C5: unpublishing the second of two archived items; the
pointer moves to the serialization of the remaining item. -/
theorem unpublish_success_moves_back_wit :
    sampleArchState.archive = .items [sampleA, sampleB] ∧
    ([sampleA, sampleB].getLast? = some sampleB) ∧
    tolerantLoad .readAlbumFail .parseAlbumFail sampleArchState.album = .ok [] ∧
    faultFree.sftpOk = true ∧ faultFree.writeArchiveOk = true ∧
    faultFree.writeAlbumOk = true ∧
    ((unpublishProcess faultFree sampleArchState).1 = .ok () ∧
     (unpublishProcess faultFree sampleArchState).2.archive
       = .items [sampleA, sampleB].dropLast ∧
     (unpublishProcess faultFree sampleArchState).2.album = .items (sampleB :: []) ∧
     ([sampleA, sampleB].dropLast = [] →
       (unpublishProcess faultFree sampleArchState).2.pointer = sampleArchState.pointer) ∧
     (∀ y, [sampleA, sampleB].dropLast.getLast? = some y →
       (unpublishProcess faultFree sampleArchState).2.pointer
         = some (serializeItem y))) :=
  ⟨rfl, rfl, rfl, rfl, rfl, rfl,
    unpublish_success_moves_back faultFree sampleArchState sampleB
      [sampleA, sampleB] [] rfl rfl rfl rfl rfl rfl⟩

/-- C6: a CDN purge failure is advisory: with every other step succeeding,
publish still moves the item from Queue to Archive, updates the pointer,
reports overall success, and only logs one more warning. -/
theorem publish_cdn_advisory (w : Faults) (s : SysState)
    (x : AlbumItem) (rest ys : List AlbumItem)
    (halbum : s.album = .items (x :: rest))
    (harch : tolerantLoad .readArchiveFail .parseArchiveFail s.archive = .ok ys)
    (hsftp : w.sftpOk = true) (hcdn : w.cdnOk = false)
    (hwa : w.writeArchiveOk = true) (hwb : w.writeAlbumOk = true) :
    (publishProcess w s).1 = .ok () ∧
    (publishProcess w s).2.album = .items rest ∧
    (publishProcess w s).2.archive = .items (ys ++ [x]) ∧
    (publishProcess w s).2.pointer = some (serializeItem x) ∧
    (publishProcess w s).2.cdnWarnings = s.cdnWarnings + 1 := by
  simp [publishProcess, strictLoad, halbum, hsftp, hwa, hwb, harch, hcdn]

/-- Witness for C6: the CDN purge fails while everything else succeeds. -/
theorem publish_cdn_advisory_wit :
    sampleState.album = .items (sampleA :: [sampleB]) ∧
    tolerantLoad .readArchiveFail .parseArchiveFail sampleState.archive
      = .ok [] ∧
    faultCdn.sftpOk = true ∧ faultCdn.cdnOk = false ∧
    faultCdn.writeArchiveOk = true ∧ faultCdn.writeAlbumOk = true ∧
    ((publishProcess faultCdn sampleState).1 = .ok () ∧
     (publishProcess faultCdn sampleState).2.album = .items [sampleB] ∧
     (publishProcess faultCdn sampleState).2.archive = .items ([] ++ [sampleA]) ∧
     (publishProcess faultCdn sampleState).2.pointer = some (serializeItem sampleA) ∧
     (publishProcess faultCdn sampleState).2.cdnWarnings = sampleState.cdnWarnings + 1) :=
  ⟨rfl, rfl, rfl, rfl, rfl, rfl,
    publish_cdn_advisory faultCdn sampleState sampleA [sampleB] []
      rfl rfl rfl rfl rfl rfl⟩

/-- Counterexample to C7 as stated: publish invoked with the album file
absent fails with a read error — the Queue load does not return an empty
sequence, and the resulting error is not the empty-queue validation error;
likewise unpublish with the archive file absent fails with a read error. -/
theorem load_absent_error_cex :
    (publishProcess (⟨true, true, true, true⟩ : Faults)
        (⟨.absent, .items [], none, 0⟩ : SysState)).1 = .error .readAlbumFail ∧
    (publishProcess (⟨true, true, true, true⟩ : Faults)
        (⟨.absent, .items [], none, 0⟩ : SysState)).1 ≠ .error .emptyAlbum ∧
    (unpublishProcess (⟨true, true, true, true⟩ : Faults)
        (⟨.items [], .absent, none, 0⟩ : SysState)).1 = .error .readArchiveFail := by
  refine ⟨by decide, by decide, by decide⟩

/-- C7 as amended: an absent backing file is treated as the empty sequence
only by the secondary load of each operation — the Archive load inside
publish and the Queue load inside unpublish — while the collection each
operation acts on (the Queue in publish, the Archive in unpublish) must
exist: its absence is a read error. Malformed persisted content fails with
the serialization error at every load. -/
theorem load_behavior_amended (w : Faults) (s t : SysState)
    (x y : AlbumItem) (rest zs : List AlbumItem)
    (hsftp : w.sftpOk = true) (hwa : w.writeArchiveOk = true)
    (hwb : w.writeAlbumOk = true)
    (hsalbum : s.album = .items (x :: rest)) (hsarch : s.archive = .absent)
    (htarch : t.archive = .items zs) (htlast : zs.getLast? = some y)
    (htalbum : t.album = .absent) :
    ((publishProcess w s).1 = .ok () ∧ (publishProcess w s).2.archive = .items [x]) ∧
    ((unpublishProcess w t).1 = .ok () ∧
      ∃ xs, (unpublishProcess w t).2.album = .items (y :: xs)) ∧
    (∀ u : SysState, u.album = .malformed →
      (publishProcess w u).1 = .error .parseAlbumFail) ∧
    (∀ u : SysState, u.archive = .malformed →
      (unpublishProcess w u).1 = .error .parseArchiveFail) ∧
    (∀ (u : SysState) (z : AlbumItem) (zr : List AlbumItem), u.album = .items (z :: zr) →
      u.archive = .malformed → (publishProcess w u).1 = .error .parseArchiveFail) ∧
    (∀ (u : SysState) (zs' : List AlbumItem) (z : AlbumItem), u.archive = .items zs' →
      zs'.getLast? = some z → u.album = .malformed →
      (unpublishProcess w u).1 = .error .parseAlbumFail) ∧
    (∀ u : SysState, u.album = .absent →
      (publishProcess w u).1 = .error .readAlbumFail) ∧
    (∀ u : SysState, u.archive = .absent →
      (unpublishProcess w u).1 = .error .readArchiveFail) := by
  refine ⟨?_, ?_, ?_, ?_, ?_, ?_, ?_, ?_⟩
  · have harch : tolerantLoad .readArchiveFail .parseArchiveFail s.archive = .ok [] := by
      simp [tolerantLoad, hsarch]
    rw [publish_ok_eq w s x rest [] hsalbum harch hsftp hwa hwb]
    simp
  · have halbt : tolerantLoad .readAlbumFail .parseAlbumFail t.album = .ok [] := by
      simp [tolerantLoad, htalbum]
    simp only [unpublishProcess, strictLoad, htarch, htlast, halbt]
    cases hdl : zs.dropLast.getLast? with
    | none => simp [unpublishCommit, hwa, hwb]
    | some z =>
      cases hc : w.cdnOk <;> simp [unpublishCommit, hwa, hwb, hsftp, hdl]
  · intro u hu
    simp [publishProcess, strictLoad, hu]
  · intro u hu
    simp [unpublishProcess, strictLoad, hu]
  · intro u z zr hua hur
    cases hc : w.cdnOk <;>
      simp [publishProcess, strictLoad, tolerantLoad, hua, hur, hsftp, hc]
  · intro u zs' z hua hul hub
    simp [unpublishProcess, strictLoad, tolerantLoad, hua, hul, hub]
  · intro u hu
    simp [publishProcess, strictLoad, hu]
  · intro u hu
    simp [unpublishProcess, strictLoad, hu]

/-- Witness for the amended C7: a queued item with the archive file absent,
and an archived item with the album file absent. -/
theorem load_behavior_amended_wit :
    faultFree.sftpOk = true ∧ faultFree.writeArchiveOk = true ∧
    faultFree.writeAlbumOk = true ∧
    absentArchState.album = .items (sampleA :: []) ∧
    absentArchState.archive = .absent ∧
    absentAlbumState.archive = .items [sampleB] ∧
    ([sampleB].getLast? = some sampleB) ∧
    absentAlbumState.album = .absent ∧
    (((publishProcess faultFree absentArchState).1 = .ok () ∧
      (publishProcess faultFree absentArchState).2.archive = .items [sampleA]) ∧
     ((unpublishProcess faultFree absentAlbumState).1 = .ok () ∧
       ∃ xs, (unpublishProcess faultFree absentAlbumState).2.album
         = .items (sampleB :: xs)) ∧
     (∀ u : SysState, u.album = .malformed →
       (publishProcess faultFree u).1 = .error .parseAlbumFail) ∧
     (∀ u : SysState, u.archive = .malformed →
       (unpublishProcess faultFree u).1 = .error .parseArchiveFail) ∧
     (∀ (u : SysState) (z : AlbumItem) (zr : List AlbumItem), u.album = .items (z :: zr) →
       u.archive = .malformed → (publishProcess faultFree u).1 = .error .parseArchiveFail) ∧
     (∀ (u : SysState) (zs' : List AlbumItem) (z : AlbumItem), u.archive = .items zs' →
       zs'.getLast? = some z → u.album = .malformed →
       (unpublishProcess faultFree u).1 = .error .parseAlbumFail) ∧
     (∀ u : SysState, u.album = .absent →
       (publishProcess faultFree u).1 = .error .readAlbumFail) ∧
     (∀ u : SysState, u.archive = .absent →
       (unpublishProcess faultFree u).1 = .error .readArchiveFail)) :=
  ⟨rfl, rfl, rfl, rfl, rfl, rfl, rfl, rfl,
    load_behavior_amended faultFree absentArchState absentAlbumState
      sampleA sampleB [] [sampleB] rfl rfl rfl rfl rfl rfl rfl rfl⟩

theorem nodup_publish_shift (a : Ident) (r y : List Ident)
    (h : (a :: (r ++ y)).Nodup) : (r ++ (y ++ [a])).Nodup := by
  have hp : (a :: (r ++ y)).Perm ((r ++ y) ++ [a]) :=
    (List.perm_append_singleton a (r ++ y)).symm
  have := hp.nodup h
  rwa [List.append_assoc] at this

theorem nodup_unpublish_shift (l : Ident) (xs rem : List Ident)
    (h : (xs ++ (rem ++ [l])).Nodup) : (l :: (xs ++ rem)).Nodup := by
  have hp : ((xs ++ rem) ++ [l]).Perm (l :: (xs ++ rem)) :=
    List.perm_append_singleton l (xs ++ rem)
  refine hp.nodup ?_
  rwa [List.append_assoc]

theorem nodup_unpublish_drop (l : Ident) (xs rem : List Ident)
    (h : (xs ++ (rem ++ [l])).Nodup) : (xs ++ rem).Nodup := by
  refine List.Nodup.sublist ?_ h
  exact List.Sublist.append_left (List.sublist_append_left rem [l]) xs

theorem publish_preserves_idUnique (w : Faults) (s : SysState)
    (hinv : idUnique s) (hw : w.writeArchiveOk = true → w.writeAlbumOk = true) :
    idUnique (publishProcess w s).2 := by
  cases ha : s.album with
  | absent => simpa [publishProcess, strictLoad, ha] using hinv
  | unreadable => simpa [publishProcess, strictLoad, ha] using hinv
  | malformed => simpa [publishProcess, strictLoad, ha] using hinv
  | items xs =>
    cases xs with
    | nil => simpa [publishProcess, strictLoad, ha] using hinv
    | cons x rest =>
      cases hsf : w.sftpOk with
      | false => simpa [publishProcess, strictLoad, ha, hsf] using hinv
      | true =>
        cases har : s.archive with
        | unreadable =>
          cases hc : w.cdnOk <;>
            simpa [publishProcess, strictLoad, tolerantLoad, ha, hsf, har, hc,
              idUnique, idsOfFile, itemsOfFile] using hinv
        | malformed =>
          cases hc : w.cdnOk <;>
            simpa [publishProcess, strictLoad, tolerantLoad, ha, hsf, har, hc,
              idUnique, idsOfFile, itemsOfFile] using hinv
        | absent =>
          cases hwa : w.writeArchiveOk with
          | false =>
            cases hc : w.cdnOk <;>
              simpa [publishProcess, strictLoad, tolerantLoad, ha, hsf, har, hc, hwa,
                idUnique, idsOfFile, itemsOfFile] using hinv
          | true =>
            have hwb := hw hwa
            have hgoal : ((rest.map AlbumItem.id) ++ ([] ++ [x.id])).Nodup := by
              apply nodup_publish_shift
              simpa [idUnique, idsOfFile, itemsOfFile, ha, har] using hinv
            cases hc : w.cdnOk <;>
              simpa [publishProcess, strictLoad, tolerantLoad, ha, hsf, har, hc, hwa, hwb,
                idUnique, idsOfFile, itemsOfFile] using hgoal
        | items ys =>
          cases hwa : w.writeArchiveOk with
          | false =>
            cases hc : w.cdnOk <;>
              simpa [publishProcess, strictLoad, tolerantLoad, ha, hsf, har, hc, hwa,
                idUnique, idsOfFile, itemsOfFile] using hinv
          | true =>
            have hwb := hw hwa
            have hgoal : ((rest.map AlbumItem.id) ++ ((ys.map AlbumItem.id) ++ [x.id])).Nodup := by
              apply nodup_publish_shift
              simpa [idUnique, idsOfFile, itemsOfFile, ha, har] using hinv
            cases hc : w.cdnOk <;>
              simpa [publishProcess, strictLoad, tolerantLoad, ha, hsf, har, hc, hwa, hwb,
                idUnique, idsOfFile, itemsOfFile] using hgoal

theorem unpublish_preserves_idUnique (w : Faults) (s : SysState)
    (hinv : idUnique s) : idUnique (unpublishProcess w s).2 := by
  cases har : s.archive with
  | absent => simpa [unpublishProcess, strictLoad, har] using hinv
  | unreadable => simpa [unpublishProcess, strictLoad, har] using hinv
  | malformed => simpa [unpublishProcess, strictLoad, har] using hinv
  | items zs =>
    rcases List.eq_nil_or_concat zs with rfl | ⟨rem, l, rfl⟩
    · simpa [unpublishProcess, strictLoad, har] using hinv
    · rw [List.concat_eq_append] at har
      have hinv' : ((idsOfFile s.album) ++ ((rem.map AlbumItem.id) ++ [l.id])).Nodup := by
        simpa [idUnique, idsOfFile, itemsOfFile, har] using hinv
      have hfull : ∀ xs : List AlbumItem, idsOfFile s.album = xs.map AlbumItem.id →
          ((l :: xs).map AlbumItem.id ++ rem.map AlbumItem.id).Nodup := by
        intro xs hxs
        rw [hxs] at hinv'
        simpa using nodup_unpublish_shift l.id (xs.map AlbumItem.id) (rem.map AlbumItem.id) hinv'
      have hdrop : ∀ xs : List AlbumItem, idsOfFile s.album = xs.map AlbumItem.id →
          (xs.map AlbumItem.id ++ rem.map AlbumItem.id).Nodup := by
        intro xs hxs
        rw [hxs] at hinv'
        exact nodup_unpublish_drop l.id (xs.map AlbumItem.id) (rem.map AlbumItem.id) hinv'
      cases halb : s.album with
      | unreadable =>
        simpa [unpublishProcess, strictLoad, tolerantLoad, har, halb,
          List.getLast?_concat, List.dropLast_concat] using hinv
      | malformed =>
        simpa [unpublishProcess, strictLoad, tolerantLoad, har, halb,
          List.getLast?_concat, List.dropLast_concat] using hinv
      | absent =>
        have h0 : idsOfFile s.album = ([] : List AlbumItem).map AlbumItem.id := by
          simp [idsOfFile, itemsOfFile, halb]
        cases hrl : rem.getLast? with
        | none =>
          cases hwa : w.writeArchiveOk with
          | false =>
            simpa [unpublishProcess, unpublishCommit, strictLoad, tolerantLoad, har, halb,
              hrl, hwa, List.getLast?_concat, List.dropLast_concat,
              idUnique, idsOfFile, itemsOfFile] using hinv
          | true =>
            cases hwb : w.writeAlbumOk with
            | false =>
              have := hdrop [] h0
              simpa [unpublishProcess, unpublishCommit, strictLoad, tolerantLoad, har, halb,
                hrl, hwa, hwb, List.getLast?_concat, List.dropLast_concat,
                idUnique, idsOfFile, itemsOfFile] using this
            | true =>
              have := hfull [] h0
              simpa [unpublishProcess, unpublishCommit, strictLoad, tolerantLoad, har, halb,
                hrl, hwa, hwb, List.getLast?_concat, List.dropLast_concat,
                idUnique, idsOfFile, itemsOfFile] using this
        | some y =>
          cases hsf : w.sftpOk with
          | false =>
            simpa [unpublishProcess, strictLoad, tolerantLoad, har, halb, hrl, hsf,
              List.getLast?_concat, List.dropLast_concat,
              idUnique, idsOfFile, itemsOfFile] using hinv
          | true =>
            cases hwa : w.writeArchiveOk with
            | false =>
              cases hc : w.cdnOk <;>
                simpa [unpublishProcess, unpublishCommit, strictLoad, tolerantLoad, har, halb,
                  hrl, hsf, hwa, hc, List.getLast?_concat, List.dropLast_concat,
                  idUnique, idsOfFile, itemsOfFile] using hinv
            | true =>
              cases hwb : w.writeAlbumOk with
              | false =>
                have := hdrop [] h0
                cases hc : w.cdnOk <;>
                  simpa [unpublishProcess, unpublishCommit, strictLoad, tolerantLoad, har, halb,
                    hrl, hsf, hwa, hwb, hc, List.getLast?_concat, List.dropLast_concat,
                    idUnique, idsOfFile, itemsOfFile] using this
              | true =>
                have := hfull [] h0
                cases hc : w.cdnOk <;>
                  simpa [unpublishProcess, unpublishCommit, strictLoad, tolerantLoad, har, halb,
                    hrl, hsf, hwa, hwb, hc, List.getLast?_concat, List.dropLast_concat,
                    idUnique, idsOfFile, itemsOfFile] using this
      | items xs =>
        have h0 : idsOfFile s.album = xs.map AlbumItem.id := by
          simp [idsOfFile, itemsOfFile, halb]
        cases hrl : rem.getLast? with
        | none =>
          cases hwa : w.writeArchiveOk with
          | false =>
            simpa [unpublishProcess, unpublishCommit, strictLoad, tolerantLoad, har, halb,
              hrl, hwa, List.getLast?_concat, List.dropLast_concat,
              idUnique, idsOfFile, itemsOfFile] using hinv
          | true =>
            cases hwb : w.writeAlbumOk with
            | false =>
              have := hdrop xs h0
              simpa [unpublishProcess, unpublishCommit, strictLoad, tolerantLoad, har, halb,
                hrl, hwa, hwb, List.getLast?_concat, List.dropLast_concat,
                idUnique, idsOfFile, itemsOfFile] using this
            | true =>
              have := hfull xs h0
              simpa [unpublishProcess, unpublishCommit, strictLoad, tolerantLoad, har, halb,
                hrl, hwa, hwb, List.getLast?_concat, List.dropLast_concat,
                idUnique, idsOfFile, itemsOfFile] using this
        | some y =>
          cases hsf : w.sftpOk with
          | false =>
            simpa [unpublishProcess, strictLoad, tolerantLoad, har, halb, hrl, hsf,
              List.getLast?_concat, List.dropLast_concat,
              idUnique, idsOfFile, itemsOfFile] using hinv
          | true =>
            cases hwa : w.writeArchiveOk with
            | false =>
              cases hc : w.cdnOk <;>
                simpa [unpublishProcess, unpublishCommit, strictLoad, tolerantLoad, har, halb,
                  hrl, hsf, hwa, hc, List.getLast?_concat, List.dropLast_concat,
                  idUnique, idsOfFile, itemsOfFile] using hinv
            | true =>
              cases hwb : w.writeAlbumOk with
              | false =>
                have := hdrop xs h0
                cases hc : w.cdnOk <;>
                  simpa [unpublishProcess, unpublishCommit, strictLoad, tolerantLoad, har, halb,
                    hrl, hsf, hwa, hwb, hc, List.getLast?_concat, List.dropLast_concat,
                    idUnique, idsOfFile, itemsOfFile] using this
              | true =>
                have := hfull xs h0
                cases hc : w.cdnOk <;>
                  simpa [unpublishProcess, unpublishCommit, strictLoad, tolerantLoad, har, halb,
                    hrl, hsf, hwa, hwb, hc, List.getLast?_concat, List.dropLast_concat,
                    idUnique, idsOfFile, itemsOfFile] using this

/-- Counterexample to C8 as stated: from an id-unique state with one queued
item, a publish whose final album write fails (explicitly included by the
claim) leaves the item persisted in both collections, so its id occurs
twice across Queue and Archive. -/
theorem idUnique_violated_cex :
    idUnique (⟨.items [⟨Ident.str "1", "a", "", ""⟩], .items [], none, 0⟩ : SysState) ∧
    ¬ idUnique (publishProcess (⟨true, true, true, false⟩ : Faults)
      (⟨.items [⟨Ident.str "1", "a", "", ""⟩], .items [], none, 0⟩ : SysState)).2 := by
  constructor
  · decide
  · decide

/-- C8 as amended: id-uniqueness across Queue and Archive is preserved by
every unpublish invocation whatever its faults, and by every publish
invocation except one whose Archive write succeeds and whose Queue write
then fails — the one failure window in which the published item is left in
both collections. -/
theorem idUnique_reachable (s t : SysState) (hinv : idUnique s)
    (h : ReachableOk s t) : idUnique t := by
  induction h with
  | refl => exact hinv
  | pub w hw h ih => exact publish_preserves_idUnique w _ (ih hinv) hw
  | unpub w h ih => exact unpublish_preserves_idUnique w _ (ih hinv)

/-- Witness for the amended C8: one fully successful publish step from an
id-unique two-item state. -/
theorem idUnique_reachable_wit :
    idUnique sampleState ∧
    ReachableOk sampleState (publishProcess faultFree sampleState).2 ∧
    idUnique (publishProcess faultFree sampleState).2 :=
  ⟨by decide,
   ReachableOk.pub faultFree (fun _ => rfl) (ReachableOk.refl sampleState),
   idUnique_reachable sampleState (publishProcess faultFree sampleState).2
     (by decide)
     (ReachableOk.pub faultFree (fun _ => rfl) (ReachableOk.refl sampleState))⟩

theorem hexDigitChar_range (n : Nat) (hn : n < 16) :
    (48 ≤ (hexDigitChar n).toNat ∧ (hexDigitChar n).toNat ≤ 57) ∨
    (97 ≤ (hexDigitChar n).toNat ∧ (hexDigitChar n).toNat ≤ 102) := by
  interval_cases n <;> decide

theorem hexOfBytes_lower (bs : List Nat) :
    ∀ c ∈ (hexOfBytes bs).data,
      (48 ≤ c.toNat ∧ c.toNat ≤ 57) ∨ (97 ≤ c.toNat ∧ c.toNat ≤ 102) := by
  intro c hc
  simp only [hexOfBytes, List.mem_flatten, List.mem_map] at hc
  obtain ⟨l, ⟨b, hb, rfl⟩, hcl⟩ := hc
  simp only [hexByte, List.mem_cons, List.mem_singleton] at hcl
  rcases hcl with rfl | rfl | h
  · exact hexDigitChar_range _ (Nat.mod_lt _ (by omega))
  · exact hexDigitChar_range _ (Nat.mod_lt _ (by omega))
  · cases h

/-- C9: the content address assigned by the upload handler equals the
lowercase hex encoding of the SHA-256 digest of the uploaded bytes followed
by the file extension — independent of the temporary-name nonce and of
whether the local rename succeeds — so identical byte content always yields
the identical content address; every character of the hex part is a
lowercase hexadecimal digit. -/
theorem content_address_correct (nonce nonce' : Nat) (rok rok' : Bool)
    (cdnURL : String) (data : List Nat) (fileExt : String) :
    (uploadHandler nonce rok cdnURL data fileExt).filename
      = specContentAddress data fileExt ∧
    (uploadHandler nonce rok cdnURL data fileExt).url
      = cdnURL ++ "/content/" ++ specContentAddress data fileExt ∧
    (uploadHandler nonce rok cdnURL data fileExt).filename
      = (uploadHandler nonce' rok' cdnURL data fileExt).filename ∧
    ∀ c ∈ (specContentAddress data "").data,
      (48 ≤ c.toNat ∧ c.toNat ≤ 57) ∨ (97 ≤ c.toNat ∧ c.toNat ≤ 102) := by
  refine ⟨rfl, rfl, rfl, ?_⟩
  intro c hc
  have hdata : (specContentAddress data "").data = (hexOfBytes (sha256 data)).data := by
    simp [specContentAddress]
  rw [hdata] at hc
  exact hexOfBytes_lower (sha256 data) c hc

/-- C10: once the pointer upload has succeeded, the published item is in at
least one persisted collection in the final state of every publish
execution — in particular when the final Queue write fails after the
Archive write succeeded, and no fault pattern leaves it absent from
both. -/
theorem publish_item_never_lost (w : Faults) (s : SysState)
    (x : AlbumItem) (rest : List AlbumItem)
    (halbum : s.album = .items (x :: rest)) (hsftp : w.sftpOk = true) :
    x ∈ itemsOfFile (publishProcess w s).2.album ∨
    x ∈ itemsOfFile (publishProcess w s).2.archive := by
  cases har : s.archive with
  | unreadable =>
    cases hc : w.cdnOk <;>
      simp [publishProcess, strictLoad, tolerantLoad, halbum, hsftp, har, hc, itemsOfFile]
  | malformed =>
    cases hc : w.cdnOk <;>
      simp [publishProcess, strictLoad, tolerantLoad, halbum, hsftp, har, hc, itemsOfFile]
  | absent =>
    cases hwa : w.writeArchiveOk <;> cases hwb : w.writeAlbumOk <;> cases hc : w.cdnOk <;>
      simp [publishProcess, strictLoad, tolerantLoad, halbum, hsftp, har, hc, hwa, hwb,
        itemsOfFile]
  | items ys =>
    cases hwa : w.writeArchiveOk <;> cases hwb : w.writeAlbumOk <;> cases hc : w.cdnOk <;>
      simp [publishProcess, strictLoad, tolerantLoad, halbum, hsftp, har, hc, hwa, hwb,
        itemsOfFile]

/-- Witness for C10: the album write fails after the archive write
succeeded; the item is still persisted (in both collections). -/
theorem publish_item_never_lost_wit :
    sampleState.album = .items (sampleA :: [sampleB]) ∧
    faultAlbumWrite.sftpOk = true ∧
    (sampleA ∈ itemsOfFile (publishProcess faultAlbumWrite sampleState).2.album ∨
     sampleA ∈ itemsOfFile (publishProcess faultAlbumWrite sampleState).2.archive) :=
  ⟨rfl, rfl,
    publish_item_never_lost faultAlbumWrite sampleState sampleA [sampleB] rfl rfl⟩

set_option maxRecDepth 10000 in
/-- Sanity check of the SHA-256 embedding against the FIPS 180 test vector
for the three-byte message `abc`. -/
example :
    hexOfBytes (sha256 [97, 98, 99])
      = "ba7816bf8f01cfea414140de5dae2223b00361a396177a9cb410ff61f20015ad" := by
  decide

end Dimagram
